import Mathlib

/-!
Shallow embedding of `src/tests/integration/db_utils.py` — the CSV
import/export/compare utilities of this repository.

Modelling conventions:
* A CSV row (Python `csv.DictReader` dict) is an association list from column
  name to raw string value; an absent key is `none` (Python's `row.get(h, '')`
  then supplies the default, which the embedding applies at each use site).
* Python's built-in `int()` / `float()` string conversions are modelled over
  ASCII digits with an optional sign and optional surrounding ASCII
  whitespace; digit-group underscores and non-ASCII digits are not modelled.
  A parsed float is kept as an exact decimal `m * 10 ^ e` (plus infinities and
  NaN); Python compares IEEE doubles, the embedding compares the exact
  decimals, which agrees on all equal-decimal inputs such as "1.0" vs "1.00".
* Database traffic is modelled as an explicit effect trace (`DbEffect`) over
  an abstract catalog state (`DbState`); the human-readable difference
  strings built by `compare_csv_files` are kept as a structured `Diff` value
  carrying exactly the data interpolated into the Python f-strings.
* Python `sorted` is a stable sort; the embedding sorts with Mathlib's
  insertion sort over the same ordering (string comparison by Unicode code
  point, tuple comparison lexicographic), which yields the same sorted key
  sequence; rows with equal sort keys agree on every compared column, so the
  comparison output is identical.
-/

/-- Python string comparison: `True`/`False` of `a < b` elementwise by code
point, shorter prefix first.  Generic in the element order so it serves both
`str < str` (over `Char`) and tuple comparison (over `String`). -/
def pyLexLt (lt : α → α → Bool) : List α → List α → Bool
  | _, [] => false
  | [], _ :: _ => true
  | a :: as, b :: bs => if lt a b then true else if lt b a then false else pyLexLt lt as bs

/-- Non-strict version of `pyLexLt`, used as the sorting comparator. -/
def pyLexLe (lt : α → α → Bool) : List α → List α → Bool
  | [], _ => true
  | _ :: _, [] => false
  | a :: as, b :: bs => if lt a b then true else if lt b a then false else pyLexLe lt as bs

/-- Code-point comparison of characters (Python compares `str` by code point). -/
def chLt (a b : Char) : Bool := decide (a < b)

/-- Python `a < b` on strings. -/
def pyStrLt (a b : String) : Bool := pyLexLt chLt a.data b.data

/-- Python `a <= b` on strings. -/
def pyStrLe (a b : String) : Bool := pyLexLe chLt a.data b.data

/-- Python `<=` on tuples of strings (the row sort keys). -/
def keyLe (a b : List String) : Bool := pyLexLe pyStrLt a b

/-- Python ASCII whitespace accepted by `int()` / `float()` around a literal. -/
def isPyWs (c : Char) : Bool :=
  c == ' ' || c == '\t' || c == '\n' || c == '\r' || c.toNat == 11 || c.toNat == 12

/-- Strip leading and trailing whitespace, as `int()` / `float()` do. -/
def stripWs (cs : List Char) : List Char :=
  ((cs.dropWhile isPyWs).reverse.dropWhile isPyWs).reverse

/-- Consume an optional leading sign; returns (isNegative, rest). -/
def splitSign : List Char → Bool × List Char
  | '-' :: r => (true, r)
  | '+' :: r => (false, r)
  | cs => (false, cs)

/-- Decimal digit run to a natural number. -/
def digitsToNat (ds : List Char) : Nat :=
  ds.foldl (fun acc c => acc * 10 + (c.toNat - 48)) 0

/-- Model of the Python built-in `int(str)`: optional surrounding whitespace,
optional sign, then one or more decimal digits.  `None` models `ValueError`. -/
def pyInt (s : String) : Option Int :=
  let cs := stripWs s.data
  let (neg, ds) := splitSign cs
  if ds ≠ [] && ds.all Char.isDigit then
    some ((if neg then -1 else 1) * (digitsToNat ds : Int))
  else
    none

/-- Value of a parsed Python float: an exact decimal `m * 10 ^ e`, an
infinity, or NaN. -/
inductive PyFloat where
  | finite (m : Int) (e : Int)
  | inf
  | ninf
  | nan
deriving DecidableEq

/-- Parse the unsigned numeric body of a float literal:
`digits* [. digits*] [(e|E) [sign] digits+]` with a nonempty mantissa.
Returns the mantissa as an integer together with the decimal exponent. -/
def pyFloatBody (cs : List Char) : Option (Nat × Int) :=
  let mant := cs.takeWhile (fun c => !(c == 'e' || c == 'E'))
  let rest := cs.drop mant.length
  let expPart : Option Int :=
    match rest with
    | [] => some 0
    | _ :: er =>
      let (eneg, eds) := splitSign er
      if eds ≠ [] && eds.all Char.isDigit then
        some ((if eneg then -1 else 1) * (digitsToNat eds : Int))
      else
        none
  match expPart with
  | none => none
  | some ex =>
    let ip := mant.takeWhile (fun c => !(c == '.'))
    let fpRest := mant.drop ip.length
    let fp := match fpRest with
      | [] => some []
      | _ :: fr => if fr.all Char.isDigit then some fr else none
    match fp with
    | none => none
    | some fr =>
      if ip.all Char.isDigit && (ip ≠ [] || fr ≠ []) then
        some (digitsToNat (ip ++ fr), ex - (fr.length : Int))
      else
        none

/-- Model of the Python built-in `float(str)`: optional surrounding
whitespace, optional sign, then a numeric literal or a case-insensitive
`inf`/`infinity`/`nan`.  `None` models `ValueError`. -/
def pyFloat (s : String) : Option PyFloat :=
  let cs := stripWs s.data
  let (neg, body) := splitSign cs
  let low := body.map Char.toLower
  if low == "inf".data || low == "infinity".data then
    some (if neg then .ninf else .inf)
  else if low == "nan".data then
    some .nan
  else
    match pyFloatBody body with
    | some (m, e) => some (.finite (if neg then -(m : Int) else (m : Int)) e)
    | none => none

/-- Python `float == float` on parsed values: exact decimal equality for
finite values, infinities compare by sign, NaN equals nothing. -/
def floatEq : PyFloat → PyFloat → Bool
  | .finite m1 e1, .finite m2 e2 =>
    if e2 ≤ e1 then m1 * 10 ^ (e1 - e2).toNat == m2
    else m1 == m2 * 10 ^ (e2 - e1).toNat
  | .inf, .inf => true
  | .ninf, .ninf => true
  | _, _ => false

/-- `re.match(r'^\d{4}-\d{2}-\d{2}$', v)`: the core ten characters. -/
def dateCore (a b c d h1 e f h2 g i : Char) : Bool :=
  a.isDigit && b.isDigit && c.isDigit && d.isDigit && h1 == '-' &&
  e.isDigit && f.isDigit && h2 == '-' && g.isDigit && i.isDigit

/-- Model of `re.match(date_pattern, v)` with `date_pattern =
r'^\d{4}-\d{2}-\d{2}$'`; `$` also matches just before one final newline. -/
def matchDate (s : String) : Bool :=
  match s.data with
  | [a, b, c, d, h1, e, f, h2, g, i] => dateCore a b c d h1 e f h2 g i
  | [a, b, c, d, h1, e, f, h2, g, i, nl] =>
    dateCore a b c d h1 e f h2 g i && nl == '\n'
  | _ => false

/-- Model of `re.match(datetime_pattern, v)` with `datetime_pattern =
r'^\d{4}-\d{2}-\d{2}[T ]\d{2}:\d{2}:\d{2}'`: an unanchored prefix match. -/
def matchDatetime (s : String) : Bool :=
  match s.data with
  | a :: b :: c :: d :: h1 :: e :: f :: h2 :: g :: i :: sep :: j :: k :: c1 :: l :: m :: c2 :: n :: o :: _ =>
    dateCore a b c d h1 e f h2 g i && (sep == 'T' || sep == ' ') &&
    j.isDigit && k.isDigit && c1 == ':' && l.isDigit && m.isDigit &&
    c2 == ':' && n.isDigit && o.isDigit
  | _ => false

/-- A CSV row: `csv.DictReader` dict as an association list. -/
abbrev Row := List (String × String)

/-- Dict access `row[h]`; `none` when the column is absent from the row. -/
def rowGet (r : Row) (h : String) : Option String := r.lookup h

/-- `str(row.get(h, ''))` for well-formed rows (string values throughout). -/
def cellStr (r : Row) (h : String) : String := (rowGet r h).getD ""

/-- `[row.get(header, '') for row in rows if row.get(header, '')]`:
the non-empty sampled values of one column. -/
def sampleValues (rows : List Row) (h : String) : List String :=
  rows.filterMap fun r =>
    match rowGet r h with
    | some v => if v = "" then none else some v
    | none => none

/-- The per-column body of `infer_column_types`: the first test every sampled
value passes decides the SQL type, in the source's precedence order. -/
def inferOne (values : List String) : String :=
  if values = [] then "NVARCHAR(255)"
  else if values.all (fun v => (pyInt v).isSome) then
    let maxVal := (values.map (fun v => ((pyInt v).getD 0).natAbs)).foldl max 0
    if maxVal ≤ 2147483647 then "INT" else "BIGINT"
  else if values.all (fun v => (pyFloat v).isSome) then "DECIMAL(18,6)"
  else if values.all matchDate then "DATE"
  else if values.all matchDatetime then "DATETIME2"
  else
    let maxLen := (values.map String.length).foldl max 0
    if maxLen ≤ 50 then "NVARCHAR(50)"
    else if maxLen ≤ 255 then "NVARCHAR(255)"
    else "NVARCHAR(MAX)"

/-- `infer_column_types(headers, rows)`: one `(column, SQL type)` entry per
header, in header order (the Python dict iterates in insertion order). -/
def infer_column_types (headers : List String) (rows : List Row) : List (String × String) :=
  headers.map fun h => (h, inferOne (sampleValues rows h))

/-- A converted cell value as handed to the parameterized INSERT: a Python
int, float, or the string passed through. -/
inductive Value where
  | int (n : Int)
  | float (f : PyFloat)
  | str (s : String)
deriving DecidableEq

/-- Python `pat in s` substring test. -/
def containsSub (s pat : List Char) : Bool :=
  match s with
  | [] => pat == []
  | _ :: t => pat.isPrefixOf s || containsSub t pat

/-- `convert_value(value, sql_type)`: `none` input models the `value is None`
case, `Except.error` models the `ValueError` raised by a failed numeric
conversion. -/
def convert_value (value : Option String) (sqlType : String) : Except Unit (Option Value) :=
  match value with
  | none => .ok none
  | some v =>
    if v = "" then .ok none
    else if containsSub sqlType.data "INT".data then
      match pyInt v with
      | some n => .ok (some (.int n))
      | none => .error ()
    else if containsSub sqlType.data "DECIMAL".data || containsSub sqlType.data "FLOAT".data then
      match pyFloat v with
      | some f => .ok (some (.float f))
      | none => .error ()
    else .ok (some (.str v))

/-- `generate_create_table(schema_name, table_name, col_types)`. -/
def generate_create_table (schemaName tableName : String) (colTypes : List (String × String)) : String :=
  "CREATE TABLE [" ++ schemaName ++ "].[" ++ tableName ++ "] (\n    " ++
    String.intercalate ",\n    " (colTypes.map fun p => "[" ++ p.1 ++ "] " ++ p.2 ++ " NULL") ++
    "\n)"

/-- Abstract catalog state backing `schema_exists` / `table_exists`. -/
structure DbState where
  schemas : List String
  tables : List (String × String)

/-- `schema_exists(conn, schema_name)`: catalog lookup by name. -/
def schema_exists (st : DbState) (schemaName : String) : Bool :=
  st.schemas.contains schemaName

/-- `table_exists(conn, schema_name, table_name)`: catalog lookup by pair. -/
def table_exists (st : DbState) (schemaName tableName : String) : Bool :=
  st.tables.contains (schemaName, tableName)

/-- The tables currently in a schema, as enumerated by `drop_schema`. -/
def tablesIn (st : DbState) (schemaName : String) : List String :=
  (st.tables.filter fun p => p.1 == schemaName).map fun p => p.2

/-- One database side effect issued by the import / drop pipelines. -/
inductive DbEffect where
  | createTableEff (sql : String)
  | commitEff
  | truncateEff (schemaName tableName : String)
  | insertEff (schemaName tableName : String) (values : List (Option Value))
  | queryTablesEff (schemaName : String)
  | dropTableEff (schemaName tableName : String)
  | dropSchemaEff (schemaName : String)
deriving DecidableEq

/-- `drop_schema(conn, schema_name, cascade)`: result flag plus the trace of
statements issued after the initial existence check. -/
def drop_schema (st : DbState) (schemaName : String) (cascade : Bool) : Bool × List DbEffect :=
  if !(schema_exists st schemaName) then (true, [])
  else
    let tableEffs :=
      if cascade then
        DbEffect.queryTablesEff schemaName ::
          (tablesIn st schemaName).map fun t => DbEffect.dropTableEff schemaName t
      else []
    (true, tableEffs ++ [DbEffect.dropSchemaEff schemaName, DbEffect.commitEff])

/-- The per-cell conversion on line 210 of the source:
`convert_value(row.get(h, ''), col_types.get(h, 'NVARCHAR'))`. -/
def importCellValue (headers : List String) (rows : List Row) (row : Row) (h : String) : Except Unit (Option Value) :=
  convert_value (rowGet row h) (((infer_column_types headers rows).lookup h).getD "NVARCHAR")

/-- `import_csv(conn, csv_path, schema_name, table_name, create_table,
truncate)` on an already-parsed CSV: returns the imported row count and the
trace of mutating statements, or an error for a missing header row or a
failed cell conversion. -/
def import_csv (st : DbState) (headers : List String) (rows : List Row)
    (schemaName tableName : String) (createTable truncate : Bool) :
    Except String (Nat × List DbEffect) :=
  if headers = [] then .error "no headers"
  else if rows = [] then .ok (0, [])
  else
    let colTypes := infer_column_types headers rows
    let (st1, createEffs) :=
      if createTable && !(table_exists st schemaName tableName) then
        ({ st with tables := (schemaName, tableName) :: st.tables },
         [DbEffect.createTableEff (generate_create_table schemaName tableName colTypes),
          DbEffect.commitEff])
      else (st, ([] : List DbEffect))
    let truncEffs :=
      if truncate && table_exists st1 schemaName tableName then
        [DbEffect.truncateEff schemaName tableName]
      else []
    match rows.mapM (fun row => headers.mapM fun h => importCellValue headers rows row h) with
    | .error _ => .error "conversion failed"
    | .ok valueRows =>
      .ok (rows.length,
        createEffs ++ truncEffs ++
          (valueRows.map fun vs => DbEffect.insertEff schemaName tableName vs) ++
          [DbEffect.commitEff])

/-- A parsed CSV document: header list plus data rows. -/
structure CsvDoc where
  headers : List String
  rows : List Row

/-- A well-formed CSV document: distinct headers, and every row binds exactly
the header columns in header order (the `csv.DictReader` invariant). -/
def WfDoc (d : CsvDoc) : Prop :=
  d.headers.Nodup ∧ ∀ r ∈ d.rows, r.map Prod.fst = d.headers

/-- One difference entry of `compare_csv_files`, carrying the data the Python
code interpolates into its human-readable f-string. -/
inductive Diff where
  | headerDiff (h1 h2 : List String)
  | rowCountDiff (n1 n2 : Nat)
  | cellDiff (rowIdx : Nat) (col : String) (v1 v2 : String)
deriving DecidableEq

/-- `set(headers1) == set(headers2)`. -/
def sameHeaderSet (h1 h2 : List String) : Bool :=
  h1.all (fun h => h2.contains h) && h2.all (fun h => h1.contains h)

/-- The numeric-tolerance fallback: both cells parse as floats and compare
equal (`float(v1) == float(v2)` with the `ValueError` branch falling through). -/
def numEqStr (v1 v2 : String) : Bool :=
  match pyFloat v1, pyFloat v2 with
  | some f1, some f2 => floatEq f1 f2
  | _, _ => false

/-- One cell comparison of the inner loop: `none` when the cell matches
(string-equal or numerically equal), otherwise the recorded difference with
its 1-based row index. -/
def cellCompare (i : Nat) (h : String) (v1 v2 : String) : Option Diff :=
  if v1 = v2 then none
  else if numEqStr v1 v2 then none
  else some (.cellDiff (i + 1) h v1 v2)

/-- The `for i, (r1, r2) in enumerate(zip(rows1_sorted, rows2_sorted))` loop:
cell differences position-wise up to the shorter list. -/
def rowDiffs (headers1 : List String) (i : Nat) : List Row → List Row → List Diff
  | r1 :: t1, r2 :: t2 =>
    (headers1.filterMap fun h => cellCompare i h (cellStr r1 h) (cellStr r2 h)) ++
      rowDiffs headers1 (i + 1) t1 t2
  | _, _ => []

/-- `sorted(headers1)`: headers in code-point order. -/
def sortedHeaders (hs : List String) : List String :=
  List.insertionSort (fun a b => pyStrLe a b = true) hs

/-- `row_key(row)`: the composite sort key over the sorted headers. -/
def rowKey (sortedH : List String) (r : Row) : List String :=
  sortedH.map fun h => cellStr r h

/-- `sorted(rows, key=row_key)`: rows in key order. -/
def sortRows (sortedH : List String) (rows : List Row) : List Row :=
  List.insertionSort (fun r1 r2 => keyLe (rowKey sortedH r1) (rowKey sortedH r2) = true) rows

/-- `compare_csv_files(file1, file2, ignore_order)` on two parsed documents:
the match flag together with the ordered difference list. -/
def compare_csv_files (d1 d2 : CsvDoc) (ignoreOrder : Bool) : Bool × List Diff :=
  let headerDiffs :=
    if sameHeaderSet d1.headers d2.headers then [] else [Diff.headerDiff d1.headers d2.headers]
  let countDiffs :=
    if d1.rows.length = d2.rows.length then []
    else [Diff.rowCountDiff d1.rows.length d2.rows.length]
  let sortedH := sortedHeaders d1.headers
  let rows1s := if ignoreOrder then sortRows sortedH d1.rows else d1.rows
  let rows2s := if ignoreOrder then sortRows sortedH d2.rows else d2.rows
  let differences := headerDiffs ++ countDiffs ++ rowDiffs d1.headers 0 rows1s rows2s
  (differences.length == 0, differences)

/-! ### Order properties of the Python comparison operators -/

theorem chLt_trans (a b c : Char) (h1 : chLt a b = true) (h2 : chLt b c = true) :
    chLt a c = true := by
  simp only [chLt, decide_eq_true_eq] at h1 h2 ⊢
  exact lt_trans h1 h2

theorem chLt_conn (a b : Char) (h1 : chLt a b = false) (h2 : chLt b a = false) : a = b := by
  simp only [chLt, decide_eq_false_iff_not] at h1 h2
  exact le_antisymm (not_lt.mp h2) (not_lt.mp h1)

theorem chLt_asymm (a b : Char) (h : chLt a b = true) : chLt b a = false := by
  simp only [chLt, decide_eq_true_eq, decide_eq_false_iff_not] at h ⊢
  exact lt_asymm h

theorem pyLexLt_conn {α : Type} (lt : α → α → Bool)
    (hconn : ∀ a b, lt a b = false → lt b a = false → a = b) :
    ∀ as bs : List α, pyLexLt lt as bs = false → pyLexLt lt bs as = false → as = bs := by
  intro as
  induction as with
  | nil =>
    intro bs h1 _
    cases bs with
    | nil => rfl
    | cons b bs => simp [pyLexLt] at h1
  | cons a as ih =>
    intro bs h1 h2
    cases bs with
    | nil => simp [pyLexLt] at h2
    | cons b bs =>
      cases hab : lt a b with
      | true => simp [pyLexLt, hab] at h1
      | false =>
        cases hba : lt b a with
        | true => simp [pyLexLt, hba] at h2
        | false =>
          cases hconn a b hab hba
          simp only [pyLexLt, hab, hba, if_false] at h1 h2
          rw [ih bs h1 h2]

theorem pyLexLt_asymm {α : Type} (lt : α → α → Bool)
    (hasymm : ∀ a b, lt a b = true → lt b a = false) :
    ∀ as bs : List α, pyLexLt lt as bs = true → pyLexLt lt bs as = false := by
  intro as
  induction as with
  | nil =>
    intro bs h
    cases bs with
    | nil => simp [pyLexLt] at h
    | cons b bs => rfl
  | cons a as ih =>
    intro bs h
    cases bs with
    | nil => simp [pyLexLt] at h
    | cons b bs =>
      cases hab : lt a b with
      | true => simp [pyLexLt, hab, hasymm a b hab]
      | false =>
        cases hba : lt b a with
        | true => simp [pyLexLt, hab, hba] at h
        | false =>
          simp only [pyLexLt, hab, hba, if_false] at h ⊢
          exact ih bs h

theorem pyLexLt_trans {α : Type} (lt : α → α → Bool)
    (htr : ∀ a b c, lt a b = true → lt b c = true → lt a c = true)
    (hconn : ∀ a b, lt a b = false → lt b a = false → a = b) :
    ∀ as bs cs : List α, pyLexLt lt as bs = true → pyLexLt lt bs cs = true →
      pyLexLt lt as cs = true := by
  intro as
  induction as with
  | nil =>
    intro bs cs h1 h2
    cases bs with
    | nil => simp [pyLexLt] at h1
    | cons b bs =>
      cases cs with
      | nil => simp [pyLexLt] at h2
      | cons c cs => rfl
  | cons a as ih =>
    intro bs cs h1 h2
    cases bs with
    | nil => simp [pyLexLt] at h1
    | cons b bs =>
      cases cs with
      | nil => simp [pyLexLt] at h2
      | cons c cs =>
        cases hab : lt a b with
        | true =>
          cases hbc : lt b c with
          | true => simp [pyLexLt, htr a b c hab hbc]
          | false =>
            cases hcb : lt c b with
            | true => simp [pyLexLt, hbc, hcb] at h2
            | false =>
              cases hconn b c hbc hcb
              simp [pyLexLt, hab]
        | false =>
          cases hba : lt b a with
          | true => simp [pyLexLt, hab, hba] at h1
          | false =>
            cases hconn a b hab hba
            simp only [pyLexLt, hab, hba, if_false] at h1 h2 ⊢
            cases hac : lt a c with
            | true => simp [pyLexLt, hac]
            | false =>
              cases hca : lt c a with
              | true => simp [pyLexLt, hac, hca] at h2
              | false =>
                cases hconn a c hac hca
                simp only [pyLexLt, hac, hca, if_false] at h2 ⊢
                exact ih bs cs h1 h2

theorem pyLexLe_total {α : Type} (lt : α → α → Bool) :
    ∀ as bs : List α, pyLexLe lt as bs = true ∨ pyLexLe lt bs as = true := by
  intro as
  induction as with
  | nil => intro bs; exact Or.inl rfl
  | cons a as ih =>
    intro bs
    cases bs with
    | nil => exact Or.inr rfl
    | cons b bs =>
      cases hab : lt a b with
      | true => exact Or.inl (by simp [pyLexLe, hab])
      | false =>
        cases hba : lt b a with
        | true => exact Or.inr (by simp [pyLexLe, hba])
        | false =>
          rcases ih bs with h | h
          · exact Or.inl (by simp [pyLexLe, hab, hba, h])
          · exact Or.inr (by simp [pyLexLe, hab, hba, h])

theorem pyLexLe_trans {α : Type} (lt : α → α → Bool)
    (htr : ∀ a b c, lt a b = true → lt b c = true → lt a c = true)
    (hconn : ∀ a b, lt a b = false → lt b a = false → a = b) :
    ∀ as bs cs : List α, pyLexLe lt as bs = true → pyLexLe lt bs cs = true →
      pyLexLe lt as cs = true := by
  intro as
  induction as with
  | nil => intro bs cs _ _; rfl
  | cons a as ih =>
    intro bs cs h1 h2
    cases bs with
    | nil => simp [pyLexLe] at h1
    | cons b bs =>
      cases cs with
      | nil => simp [pyLexLe] at h2
      | cons c cs =>
        cases hab : lt a b with
        | true =>
          cases hbc : lt b c with
          | true => simp [pyLexLe, htr a b c hab hbc]
          | false =>
            cases hcb : lt c b with
            | true => simp [pyLexLe, hbc, hcb] at h2
            | false =>
              cases hconn b c hbc hcb
              simp [pyLexLe, hab]
        | false =>
          cases hba : lt b a with
          | true => simp [pyLexLe, hab, hba] at h1
          | false =>
            cases hconn a b hab hba
            simp only [pyLexLe, hab, hba, if_false] at h1 h2 ⊢
            cases hac : lt a c with
            | true => simp [pyLexLe, hac]
            | false =>
              cases hca : lt c a with
              | true => simp [pyLexLe, hac, hca] at h2
              | false =>
                cases hconn a c hac hca
                simp only [pyLexLe, hac, hca, if_false] at h2 ⊢
                exact ih bs cs h1 h2

theorem pyLexLe_antisymm {α : Type} (lt : α → α → Bool)
    (hasymm : ∀ a b, lt a b = true → lt b a = false)
    (hconn : ∀ a b, lt a b = false → lt b a = false → a = b) :
    ∀ as bs : List α, pyLexLe lt as bs = true → pyLexLe lt bs as = true → as = bs := by
  intro as
  induction as with
  | nil =>
    intro bs _ h2
    cases bs with
    | nil => rfl
    | cons b bs => simp [pyLexLe] at h2
  | cons a as ih =>
    intro bs h1 h2
    cases bs with
    | nil => simp [pyLexLe] at h1
    | cons b bs =>
      cases hab : lt a b with
      | true => simp [pyLexLe, hasymm a b hab, hab] at h2
      | false =>
        cases hba : lt b a with
        | true => simp [pyLexLe, hab, hba] at h1
        | false =>
          cases hconn a b hab hba
          simp only [pyLexLe, hab, hba, if_false] at h1 h2
          rw [ih bs h1 h2]

theorem pyStrLt_trans (a b c : String) (h1 : pyStrLt a b = true) (h2 : pyStrLt b c = true) :
    pyStrLt a c = true :=
  pyLexLt_trans chLt chLt_trans chLt_conn a.data b.data c.data h1 h2

theorem pyStrLt_conn (a b : String) (h1 : pyStrLt a b = false) (h2 : pyStrLt b a = false) :
    a = b :=
  String.ext (pyLexLt_conn chLt chLt_conn a.data b.data h1 h2)

theorem pyStrLt_asymm (a b : String) (h : pyStrLt a b = true) : pyStrLt b a = false :=
  pyLexLt_asymm chLt chLt_asymm a.data b.data h

theorem pyStrLe_total (a b : String) : pyStrLe a b = true ∨ pyStrLe b a = true :=
  pyLexLe_total chLt a.data b.data

theorem pyStrLe_trans (a b c : String) (h1 : pyStrLe a b = true) (h2 : pyStrLe b c = true) :
    pyStrLe a c = true :=
  pyLexLe_trans chLt chLt_trans chLt_conn a.data b.data c.data h1 h2

theorem pyStrLe_antisymm (a b : String) (h1 : pyStrLe a b = true) (h2 : pyStrLe b a = true) :
    a = b :=
  String.ext (pyLexLe_antisymm chLt chLt_asymm chLt_conn a.data b.data h1 h2)

theorem keyLe_total (a b : List String) : keyLe a b = true ∨ keyLe b a = true :=
  pyLexLe_total pyStrLt a b

theorem keyLe_trans (a b c : List String) (h1 : keyLe a b = true) (h2 : keyLe b c = true) :
    keyLe a c = true :=
  pyLexLe_trans pyStrLt pyStrLt_trans pyStrLt_conn a b c h1 h2

theorem keyLe_antisymm (a b : List String) (h1 : keyLe a b = true) (h2 : keyLe b a = true) :
    a = b :=
  pyLexLe_antisymm pyStrLt pyStrLt_asymm pyStrLt_conn a b h1 h2

/-! ### Helper lemmas about the embedding -/

theorem lookup_map_self (f : String → String) :
    ∀ (hs : List String) (h : String), h ∈ hs →
      (hs.map fun x => (x, f x)).lookup h = some (f h) := by
  intro hs
  induction hs with
  | nil => intro h hmem; cases hmem
  | cons a t ih =>
    intro h hmem
    by_cases hha : h = a
    · subst hha
      simp [List.lookup]
    · rcases List.mem_cons.mp hmem with h1 | h1
      · exact absurd h1 hha
      · simpa [List.lookup, beq_false_of_ne hha] using ih h h1

theorem lookup_infer (headers : List String) (rows : List Row) (h : String)
    (hmem : h ∈ headers) :
    (infer_column_types headers rows).lookup h = some (inferOne (sampleValues rows h)) :=
  lookup_map_self _ headers h hmem

theorem mem_sampleValues {rows : List Row} {row : Row} {h v : String}
    (hr : row ∈ rows) (hg : rowGet row h = some v) (hne : v ≠ "") :
    v ∈ sampleValues rows h :=
  List.mem_filterMap.mpr ⟨row, hr, by simp [hg, hne]⟩

theorem foldl_max_le_iff : ∀ (l : List Nat) (a c : Nat),
    l.foldl max a ≤ c ↔ a ≤ c ∧ ∀ x ∈ l, x ≤ c := by
  intro l
  induction l with
  | nil => simp
  | cons b t ih =>
    intro a c
    simp only [List.foldl_cons, ih, max_le_iff, List.mem_cons]
    constructor
    · rintro ⟨⟨h1, h2⟩, h3⟩
      exact ⟨h1, fun x hx => by rcases hx with rfl | hx; exacts [h2, h3 x hx]⟩
    · rintro ⟨h1, h2⟩
      exact ⟨⟨h1, h2 b (Or.inl rfl)⟩, fun x hx => h2 x (Or.inr hx)⟩

theorem beq_comm_int (a b : Int) : (a == b) = (b == a) := by
  by_cases h : a = b
  · subst h; rfl
  · simp [h, Ne.symm h]

theorem floatEq_comm (f g : PyFloat) : floatEq f g = floatEq g f := by
  cases f with
  | finite m1 e1 =>
    cases g with
    | finite m2 e2 =>
      simp only [floatEq]
      rcases lt_trichotomy e1 e2 with h | h | h
      · rw [if_neg (not_le.mpr h), if_pos (le_of_lt h), beq_comm_int]
      · subst h
        simp only [le_refl, if_true, Int.sub_self, Int.toNat_zero, pow_zero, mul_one]
        exact beq_comm_int m1 m2
      · rw [if_pos (le_of_lt h), if_neg (not_le.mpr h), beq_comm_int]
    | inf => rfl
    | ninf => rfl
    | nan => rfl
  | inf => cases g <;> rfl
  | ninf => cases g <;> rfl
  | nan => cases g <;> rfl

theorem numEqStr_comm (v1 v2 : String) : numEqStr v1 v2 = numEqStr v2 v1 := by
  unfold numEqStr
  cases pyFloat v1 <;> cases pyFloat v2 <;> simp [floatEq_comm]

theorem cellCompare_none_symm (i : Nat) (h v1 v2 : String) :
    cellCompare i h v1 v2 = none ↔ cellCompare i h v2 v1 = none := by
  unfold cellCompare
  by_cases he : v1 = v2
  · simp [he]
  · rw [if_neg he, if_neg (Ne.symm he), numEqStr_comm]
    by_cases hn : numEqStr v2 v1 = true
    · simp [hn]
    · simp [hn]

theorem sameHeaderSet_comm (h1 h2 : List String) :
    sameHeaderSet h1 h2 = sameHeaderSet h2 h1 :=
  Bool.and_comm _ _

theorem sameHeaderSet_true_iff (h1 h2 : List String) :
    sameHeaderSet h1 h2 = true ↔ (∀ a ∈ h1, a ∈ h2) ∧ (∀ a ∈ h2, a ∈ h1) := by
  simp [sameHeaderSet, List.all_eq_true, List.contains, List.elem_iff]

theorem sortedHeaders_sorted (hs : List String) :
    List.Pairwise (fun a b => pyStrLe a b = true) (sortedHeaders hs) := by
  haveI : IsTotal String (fun a b => pyStrLe a b = true) := ⟨pyStrLe_total⟩
  haveI : IsTrans String (fun a b => pyStrLe a b = true) := ⟨pyStrLe_trans⟩
  exact List.sorted_insertionSort _ hs

theorem sortedHeaders_eq_of_perm {h1 h2 : List String} (hp : h1.Perm h2) :
    sortedHeaders h1 = sortedHeaders h2 := by
  haveI : IsAntisymm String (fun a b => pyStrLe a b = true) := ⟨pyStrLe_antisymm⟩
  apply List.eq_of_perm_of_sorted (r := fun a b => pyStrLe a b = true)
  · exact (List.perm_insertionSort _ h1).trans (hp.trans (List.perm_insertionSort _ h2).symm)
  · exact sortedHeaders_sorted h1
  · exact sortedHeaders_sorted h2

theorem mem_sortedHeaders {h : String} {hs : List String} (hm : h ∈ hs) :
    h ∈ sortedHeaders hs :=
  (List.perm_insertionSort _ hs).mem_iff.mpr hm

theorem sortRows_perm (K : List String) (rows : List Row) : (sortRows K rows).Perm rows :=
  List.perm_insertionSort _ rows

theorem keySeq_sorted (K : List String) (rows : List Row) :
    List.Pairwise (fun a b => keyLe a b = true) ((sortRows K rows).map (rowKey K)) := by
  haveI : IsTotal Row (fun r1 r2 => keyLe (rowKey K r1) (rowKey K r2) = true) :=
    ⟨fun a b => keyLe_total _ _⟩
  haveI : IsTrans Row (fun r1 r2 => keyLe (rowKey K r1) (rowKey K r2) = true) :=
    ⟨fun a b c => keyLe_trans _ _ _⟩
  exact List.Pairwise.map _ (fun a b hab => hab) (List.sorted_insertionSort _ rows)

theorem keySeq_eq_of_perm (K : List String) {r1 r2 : List Row} (hp : r1.Perm r2) :
    (sortRows K r1).map (rowKey K) = (sortRows K r2).map (rowKey K) := by
  haveI : IsAntisymm (List String) (fun a b => keyLe a b = true) := ⟨keyLe_antisymm⟩
  apply List.eq_of_perm_of_sorted (r := fun a b => keyLe a b = true)
  · exact ((sortRows_perm K r1).map _).trans ((hp.map _).trans ((sortRows_perm K r2).map _).symm)
  · exact keySeq_sorted K r1
  · exact keySeq_sorted K r2

theorem cellStr_eq_of_rowKey_eq {K : List String} {r r' : Row}
    (hk : rowKey K r = rowKey K r') {h : String} (hmem : h ∈ K) :
    cellStr r h = cellStr r' h :=
  List.map_eq_map_iff.mp hk h hmem

theorem filterMap_congr_mem {α β : Type} {f g : α → Option β} :
    ∀ (l : List α), (∀ a ∈ l, f a = g a) → l.filterMap f = l.filterMap g := by
  intro l
  induction l with
  | nil => intro _; rfl
  | cons a t ih =>
    intro hfg
    simp only [List.filterMap_cons, hfg a (List.mem_cons_self a t),
      ih fun x hx => hfg x (List.mem_cons_of_mem a hx)]

theorem rowDiffs_congr {H1 K : List String} (hsub : ∀ h ∈ H1, h ∈ K) :
    ∀ (i : Nat) (l1 l1' l2 l2' : List Row),
      l1.map (rowKey K) = l1'.map (rowKey K) →
      l2.map (rowKey K) = l2'.map (rowKey K) →
      rowDiffs H1 i l1 l2 = rowDiffs H1 i l1' l2' := by
  intro i l1
  induction l1 generalizing i with
  | nil =>
    intro l1' l2 l2' h1 h2
    have hl1 : l1' = [] := by simpa using h1.symm
    subst hl1
    cases l2 <;> cases l2' <;> simp [rowDiffs]
  | cons r1 t1 ih =>
    intro l1' l2 l2' h1 h2
    cases l1' with
    | nil => simp at h1
    | cons r1' t1' =>
      simp only [List.map_cons, List.cons.injEq] at h1
      obtain ⟨hk1, ht1⟩ := h1
      cases l2 with
      | nil =>
        have hl2 : l2' = [] := by simpa using h2.symm
        subst hl2
        simp [rowDiffs]
      | cons r2 t2 =>
        cases l2' with
        | nil => simp at h2
        | cons r2' t2' =>
          simp only [List.map_cons, List.cons.injEq] at h2
          obtain ⟨hk2, ht2⟩ := h2
          simp only [rowDiffs]
          congr 1
          · apply filterMap_congr_mem
            intro h hm
            rw [cellStr_eq_of_rowKey_eq hk1 (hsub h hm), cellStr_eq_of_rowKey_eq hk2 (hsub h hm)]
          · exact ih (i + 1) t1' t2 t2' ht1 ht2

theorem rowDiffs_nil_swap {H1 H2 : List String} (hmemiff : ∀ h, h ∈ H1 ↔ h ∈ H2) :
    ∀ (i : Nat) (l1 l2 : List Row),
      rowDiffs H1 i l1 l2 = [] ↔ rowDiffs H2 i l2 l1 = [] := by
  intro i l1
  induction l1 generalizing i with
  | nil =>
    intro l2
    cases l2 <;> simp [rowDiffs]
  | cons r1 t1 ih =>
    intro l2
    cases l2 with
    | nil => simp [rowDiffs]
    | cons r2 t2 =>
      simp only [rowDiffs, List.append_eq_nil, List.filterMap_eq_nil_iff]
      constructor
      · rintro ⟨hcell, hrest⟩
        refine ⟨?_, (ih (i + 1) t2).mp hrest⟩
        intro h hm
        exact (cellCompare_none_symm i h _ _).mp (hcell h ((hmemiff h).mpr hm))
      · rintro ⟨hcell, hrest⟩
        refine ⟨?_, (ih (i + 1) t2).mpr hrest⟩
        intro h hm
        exact (cellCompare_none_symm i h _ _).mp (hcell h ((hmemiff h).mp hm))

theorem convert_int_ok {v : String} (hv : v ≠ "") {n : Int} (hn : pyInt v = some n)
    {ty : String} (hty : containsSub ty.data "INT".data = true) :
    convert_value (some v) ty = .ok (some (.int n)) := by
  simp [convert_value, hv, hty, hn]

theorem convert_decimal_ok {v : String} (hv : v ≠ "") {f : PyFloat} (hf : pyFloat v = some f) :
    convert_value (some v) "DECIMAL(18,6)" = .ok (some (.float f)) := by
  have h1 : containsSub "DECIMAL(18,6)".data "INT".data = false := by decide
  have h2 : containsSub "DECIMAL(18,6)".data "DECIMAL".data = true := by decide
  simp [convert_value, hv, h1, h2, hf]

theorem convert_passthrough {v : String} (hv : v ≠ "") {ty : String}
    (h1 : containsSub ty.data "INT".data = false)
    (h2 : containsSub ty.data "DECIMAL".data = false)
    (h3 : containsSub ty.data "FLOAT".data = false) :
    convert_value (some v) ty = .ok (some (.str v)) := by
  simp [convert_value, hv, h1, h2, h3]

/-! ### Claim theorems -/

/-- C1 counterexample: a column whose only value is `-2147483648` — a valid
integer representable in signed 32 bits — is tagged `BIGINT`, not `INT`,
because the code compares `max(abs(int(v)))` against `2147483647`. -/
theorem infer_int32_counterexample :
    (∀ v ∈ sampleValues [[("a", "-2147483648")]] "a",
      ∃ n : Int, pyInt v = some n ∧ -(2 ^ 31) ≤ n ∧ n < 2 ^ 31) ∧
    infer_column_types ["a"] [[("a", "-2147483648")]] = [("a", "BIGINT")] ∧
    ("BIGINT" : String) ≠ "INT" := by
  refine ⟨?_, by decide, by decide⟩
  intro v hv
  have hs : sampleValues [[("a", "-2147483648")]] "a" = ["-2147483648"] := by decide
  rw [hs] at hv
  have hv' : v = "-2147483648" := by simpa using hv
  subst hv'
  exact ⟨-2147483648, by decide, by decide, by decide⟩

/-- C1 (amended): when every non-empty value of a column parses as an
integer, the column is tagged `INT` exactly when every value's absolute
value is at most `2147483647`, and `BIGINT` otherwise. -/
theorem infer_integer_types (headers : List String) (rows : List Row) (h : String)
    (hmem : h ∈ headers) (hne : sampleValues rows h ≠ [])
    (hall : ∀ v ∈ sampleValues rows h, (pyInt v).isSome = true) :
    (infer_column_types headers rows).lookup h =
      some (if ∀ v ∈ sampleValues rows h, ((pyInt v).getD 0).natAbs ≤ 2147483647
        then "INT" else "BIGINT") := by
  rw [lookup_infer headers rows h hmem]
  have hb : (sampleValues rows h).all (fun v => (pyInt v).isSome) = true :=
    List.all_eq_true.mpr hall
  simp only [inferOne, if_neg hne, if_pos hb]
  have hiff :
      (((sampleValues rows h).map fun v => ((pyInt v).getD 0).natAbs).foldl max 0 ≤ 2147483647)
        ↔ ∀ v ∈ sampleValues rows h, ((pyInt v).getD 0).natAbs ≤ 2147483647 := by
    rw [foldl_max_le_iff]
    simp
  by_cases hc : ∀ v ∈ sampleValues rows h, ((pyInt v).getD 0).natAbs ≤ 2147483647
  · rw [if_pos (hiff.mpr hc), if_pos hc]
  · rw [if_neg fun hle => hc (hiff.mp hle), if_neg hc]

/-- Witness for C1's amended theorem at a concrete one-column CSV. -/
theorem infer_integer_types_witness :
    ("a" : String) ∈ ["a"] ∧ sampleValues [[("a", "5")]] "a" ≠ [] ∧
    (∀ v ∈ sampleValues [[("a", "5")]] "a", (pyInt v).isSome = true) ∧
    (infer_column_types ["a"] [[("a", "5")]]).lookup "a" =
      some (if ∀ v ∈ sampleValues [[("a", "5")]] "a", ((pyInt v).getD 0).natAbs ≤ 2147483647
        then "INT" else "BIGINT") :=
  ⟨by decide, by decide, by decide,
    infer_integer_types ["a"] [[("a", "5")]] "a" (by decide) (by decide) (by decide)⟩

/-- C2 counterexample: importing `a,1` with table creation skipped into a
pre-existing table inserts the value as a Python int (the type is freshly
re-inferred), not as the TEXT/NVARCHAR fallback conversion, which would have
passed the string through unchanged. -/
theorem import_text_fallback_counterexample :
    import_csv ⟨["s"], [("s", "t")]⟩ ["a"] [[("a", "1")]] "s" "t" false false =
      Except.ok (1, [DbEffect.insertEff "s" "t" [some (Value.int 1)], DbEffect.commitEff]) ∧
    convert_value (some "1") "NVARCHAR" = Except.ok (some (Value.str "1")) ∧
    (some (Value.int 1) : Option Value) ≠ some (Value.str "1") :=
  ⟨rfl, rfl, by decide⟩

/-- C2 (amended): on every import — including into a pre-existing table with
creation skipped — the per-cell conversion uses the type freshly inferred by
`infer_column_types` from the current CSV's rows; since inference assigns a
type to every header, the `NVARCHAR` fallback of the lookup is never used. -/
theorem import_conversion_uses_fresh_inference (headers : List String) (rows : List Row)
    (row : Row) (h : String) (hmem : h ∈ headers) :
    (infer_column_types headers rows).lookup h = some (inferOne (sampleValues rows h)) ∧
    importCellValue headers rows row h =
      convert_value (rowGet row h) (inferOne (sampleValues rows h)) := by
  have hl := lookup_infer headers rows h hmem
  exact ⟨hl, by simp [importCellValue, hl]⟩

/-- Witness for C2's amended theorem at a concrete cell. -/
theorem import_conversion_uses_fresh_inference_witness :
    ("a" : String) ∈ ["a"] ∧
    ((infer_column_types ["a"] [[("a", "1")]]).lookup "a" =
      some (inferOne (sampleValues [[("a", "1")]] "a")) ∧
    importCellValue ["a"] [[("a", "1")]] [("a", "1")] "a" =
      convert_value (rowGet [("a", "1")] "a") (inferOne (sampleValues [[("a", "1")]] "a"))) :=
  ⟨by decide, import_conversion_uses_fresh_inference ["a"] [[("a", "1")]] [("a", "1")] "a" (by decide)⟩

/-- C3: the match flag of `compare_csv_files` is true exactly when its
difference list is empty, in either comparison mode. -/
theorem compare_match_iff_no_differences (d1 d2 : CsvDoc) (io : Bool) :
    (compare_csv_files d1 d2 io).1 = true ↔ (compare_csv_files d1 d2 io).2 = [] := by
  simp [compare_csv_files, List.length_eq_zero]

/-- C6: a column with a sampled value that is neither a valid integer nor a
valid float is tagged `DATE`, `DATETIME2`, or an `NVARCHAR` variant — never a
numeric type. -/
theorem infer_nonnumeric_column (headers : List String) (rows : List Row) (h v : String)
    (hmem : h ∈ headers) (hv : v ∈ sampleValues rows h)
    (hint : pyInt v = none) (hfl : pyFloat v = none) :
    ∃ t, (infer_column_types headers rows).lookup h = some t ∧
      (t = "DATE" ∨ t = "DATETIME2" ∨ t = "NVARCHAR(50)" ∨ t = "NVARCHAR(255)" ∨
        t = "NVARCHAR(MAX)") := by
  refine ⟨inferOne (sampleValues rows h), lookup_infer headers rows h hmem, ?_⟩
  have hne : sampleValues rows h ≠ [] := List.ne_nil_of_mem hv
  have hni : ¬ (sampleValues rows h).all (fun v => (pyInt v).isSome) = true := by
    intro hall
    have := List.all_eq_true.mp hall v hv
    rw [hint] at this
    simp at this
  have hnf : ¬ (sampleValues rows h).all (fun v => (pyFloat v).isSome) = true := by
    intro hall
    have := List.all_eq_true.mp hall v hv
    rw [hfl] at this
    simp at this
  simp only [inferOne, if_neg hne, if_neg hni, if_neg hnf]
  split_ifs <;> tauto

/-- Witness for C6 at a concrete non-numeric column. -/
theorem infer_nonnumeric_column_witness :
    ("a" : String) ∈ ["a"] ∧ ("x" : String) ∈ sampleValues [[("a", "x")]] "a" ∧
    pyInt "x" = none ∧ pyFloat "x" = none ∧
    ∃ t, (infer_column_types ["a"] [[("a", "x")]]).lookup "a" = some t ∧
      (t = "DATE" ∨ t = "DATETIME2" ∨ t = "NVARCHAR(50)" ∨ t = "NVARCHAR(255)" ∨
        t = "NVARCHAR(MAX)") :=
  ⟨by decide, by decide, by decide, by decide,
    infer_nonnumeric_column ["a"] [[("a", "x")]] "a" "x"
      (by decide) (by decide) (by decide) (by decide)⟩

/-- C7: dropping a schema that is not in the catalog succeeds and issues no
statement at all — no table enumeration, no table drop, no schema drop. -/
theorem drop_schema_nonexistent_noop (st : DbState) (schemaName : String) (cascade : Bool)
    (h : schema_exists st schemaName = false) :
    drop_schema st schemaName cascade = (true, []) := by
  simp [drop_schema, h]

/-- Witness for C7 on an empty catalog. -/
theorem drop_schema_nonexistent_noop_witness :
    schema_exists ⟨[], [("other", "t")]⟩ "s" = false ∧
    drop_schema ⟨[], [("other", "t")]⟩ "s" true = (true, []) :=
  ⟨rfl, drop_schema_nonexistent_noop ⟨[], [("other", "t")]⟩ "s" true rfl⟩

/-- C8: importing a CSV with a header row but no data rows returns 0 and
issues no database statement: no creation, truncation, insert, or commit. -/
theorem import_csv_empty_returns_zero (st : DbState) (headers : List String) (rows : List Row)
    (schemaName tableName : String) (createTable truncate : Bool)
    (hh : headers ≠ []) (hr : rows = []) :
    import_csv st headers rows schemaName tableName createTable truncate = Except.ok (0, []) := by
  subst hr
  simp [import_csv, hh]

/-- Witness for C8 at a concrete header-only CSV. -/
theorem import_csv_empty_returns_zero_witness :
    (["a"] : List String) ≠ [] ∧ ([] : List Row) = [] ∧
    import_csv ⟨[], []⟩ ["a"] [] "s" "t" true true = Except.ok (0, []) :=
  ⟨by decide, rfl, import_csv_empty_returns_zero ⟨[], []⟩ ["a"] [] "s" "t" true true (by decide) rfl⟩

/-- C9: when the column types fed to the conversion were inferred from the
same header list and row set, `convert_value` never raises on any cell of an
inserted row: the numeric-conversion error branch is unreachable. -/
theorem import_cell_conversion_never_fails (headers : List String) (rows : List Row)
    (row : Row) (h : String) (hmem : h ∈ headers) (hrow : row ∈ rows) :
    ∃ out, importCellValue headers rows row h = Except.ok out := by
  have hl := lookup_infer headers rows h hmem
  simp only [importCellValue, hl, Option.getD_some]
  cases hg : rowGet row h with
  | none => exact ⟨none, by simp [convert_value]⟩
  | some v =>
    by_cases hv : v = ""
    · subst hv
      exact ⟨none, by simp [convert_value]⟩
    · have hvmem : v ∈ sampleValues rows h := mem_sampleValues hrow hg hv
      simp only [inferOne]
      split_ifs with h0 h1 h2 h3 h4 h5 h6 h7
      · exact ⟨some (.str v), convert_passthrough hv (by decide) (by decide) (by decide)⟩
      · have hvi : (pyInt v).isSome = true := List.all_eq_true.mp h1 v hvmem
        obtain ⟨n, hn⟩ := Option.isSome_iff_exists.mp hvi
        exact ⟨some (.int n), convert_int_ok hv hn (by decide)⟩
      · have hvi : (pyInt v).isSome = true := List.all_eq_true.mp h1 v hvmem
        obtain ⟨n, hn⟩ := Option.isSome_iff_exists.mp hvi
        exact ⟨some (.int n), convert_int_ok hv hn (by decide)⟩
      · have hvf : (pyFloat v).isSome = true := List.all_eq_true.mp h3 v hvmem
        obtain ⟨f, hf⟩ := Option.isSome_iff_exists.mp hvf
        exact ⟨some (.float f), convert_decimal_ok hv hf⟩
      · exact ⟨some (.str v), convert_passthrough hv (by decide) (by decide) (by decide)⟩
      · exact ⟨some (.str v), convert_passthrough hv (by decide) (by decide) (by decide)⟩
      · exact ⟨some (.str v), convert_passthrough hv (by decide) (by decide) (by decide)⟩
      · exact ⟨some (.str v), convert_passthrough hv (by decide) (by decide) (by decide)⟩
      · exact ⟨some (.str v), convert_passthrough hv (by decide) (by decide) (by decide)⟩

/-- Witness for C9 at a concrete numeric cell. -/
theorem import_cell_conversion_never_fails_witness :
    ("a" : String) ∈ ["a"] ∧ ([("a", "1")] : Row) ∈ ([[("a", "1")]] : List Row) ∧
    ∃ out, importCellValue ["a"] [[("a", "1")]] [("a", "1")] "a" = Except.ok out :=
  ⟨by decide, by decide,
    import_cell_conversion_never_fails ["a"] [[("a", "1")]] [("a", "1")] "a"
      (by decide) (by decide)⟩

/-- C10: a cell whose raw value is the empty string and a cell whose column
is absent from the row are both converted to SQL NULL for insertion,
regardless of the column's inferred type. -/
theorem import_empty_and_missing_cells_null (headers : List String) (rows : List Row)
    (row : Row) (h : String)
    (hc : rowGet row h = none ∨ rowGet row h = some "") :
    importCellValue headers rows row h = Except.ok none := by
  rcases hc with hc | hc <;> simp [importCellValue, convert_value, hc]

/-- Witness for C10: an absent column and an empty-string column both load as
NULL. -/
theorem import_empty_and_missing_cells_null_witness :
    (rowGet [("b", "1")] "a" = none ∨ rowGet [("b", "1")] "a" = some "") ∧
    importCellValue ["a"] [[("b", "1")]] [("b", "1")] "a" = Except.ok none :=
  ⟨Or.inl rfl,
    import_empty_and_missing_cells_null ["a"] [[("b", "1")]] [("b", "1")] "a" (Or.inl rfl)⟩

theorem compare_fst (d1 d2 : CsvDoc) (io : Bool) :
    (compare_csv_files d1 d2 io).1 = ((compare_csv_files d1 d2 io).2.length == 0) := rfl

theorem compare_snd_unordered (d1 d2 : CsvDoc) :
    (compare_csv_files d1 d2 true).2 =
      (if sameHeaderSet d1.headers d2.headers then []
        else [Diff.headerDiff d1.headers d2.headers]) ++
      (if d1.rows.length = d2.rows.length then []
        else [Diff.rowCountDiff d1.rows.length d2.rows.length]) ++
      rowDiffs d1.headers 0 (sortRows (sortedHeaders d1.headers) d1.rows)
        (sortRows (sortedHeaders d1.headers) d2.rows) := rfl

theorem compare_snd_ordered (d1 d2 : CsvDoc) :
    (compare_csv_files d1 d2 false).2 =
      (if sameHeaderSet d1.headers d2.headers then []
        else [Diff.headerDiff d1.headers d2.headers]) ++
      (if d1.rows.length = d2.rows.length then []
        else [Diff.rowCountDiff d1.rows.length d2.rows.length]) ++
      rowDiffs d1.headers 0 d1.rows d2.rows := rfl

theorem compare_diffs_nil_swap (d1 d2 : CsvDoc) (io : Bool)
    (nd1 : d1.headers.Nodup) (nd2 : d2.headers.Nodup)
    (hnil : (compare_csv_files d1 d2 io).2 = []) :
    (compare_csv_files d2 d1 io).2 = [] := by
  cases io with
  | true =>
    rw [compare_snd_unordered] at hnil ⊢
    rw [List.append_eq_nil, List.append_eq_nil] at hnil
    obtain ⟨⟨hH, hC⟩, hR⟩ := hnil
    have hSS : sameHeaderSet d1.headers d2.headers = true := by
      cases hss : sameHeaderSet d1.headers d2.headers with
      | true => rfl
      | false => rw [hss] at hH; simp at hH
    have hLen : d1.rows.length = d2.rows.length := by
      by_cases hc : d1.rows.length = d2.rows.length
      · exact hc
      · rw [if_neg hc] at hC; simp at hC
    obtain ⟨hms1, hms2⟩ := (sameHeaderSet_true_iff _ _).mp hSS
    have hmemiff : ∀ x, x ∈ d1.headers ↔ x ∈ d2.headers := fun x => ⟨hms1 x, hms2 x⟩
    have hperm : d1.headers.Perm d2.headers := (List.perm_ext_iff_of_nodup nd1 nd2).mpr hmemiff
    have hsh : sortedHeaders d2.headers = sortedHeaders d1.headers :=
      (sortedHeaders_eq_of_perm hperm).symm
    rw [List.append_eq_nil, List.append_eq_nil]
    refine ⟨⟨?_, ?_⟩, ?_⟩
    · rw [sameHeaderSet_comm d2.headers d1.headers, hSS, if_pos rfl]
    · rw [if_pos hLen.symm]
    · rw [hsh]
      exact (rowDiffs_nil_swap hmemiff 0 _ _).mp hR
  | false =>
    rw [compare_snd_ordered] at hnil ⊢
    rw [List.append_eq_nil, List.append_eq_nil] at hnil
    obtain ⟨⟨hH, hC⟩, hR⟩ := hnil
    have hSS : sameHeaderSet d1.headers d2.headers = true := by
      cases hss : sameHeaderSet d1.headers d2.headers with
      | true => rfl
      | false => rw [hss] at hH; simp at hH
    have hLen : d1.rows.length = d2.rows.length := by
      by_cases hc : d1.rows.length = d2.rows.length
      · exact hc
      · rw [if_neg hc] at hC; simp at hC
    obtain ⟨hms1, hms2⟩ := (sameHeaderSet_true_iff _ _).mp hSS
    have hmemiff : ∀ x, x ∈ d1.headers ↔ x ∈ d2.headers := fun x => ⟨hms1 x, hms2 x⟩
    rw [List.append_eq_nil, List.append_eq_nil]
    refine ⟨⟨?_, ?_⟩, ?_⟩
    · rw [sameHeaderSet_comm d2.headers d1.headers, hSS, if_pos rfl]
    · rw [if_pos hLen.symm]
    · exact (rowDiffs_nil_swap hmemiff 0 _ _).mp hR

/-- C4: for well-formed CSV documents the match flag of the comparator is
symmetric in its two file arguments, in either comparison mode. -/
theorem compare_match_symm (d1 d2 : CsvDoc) (io : Bool) (w1 : WfDoc d1) (w2 : WfDoc d2) :
    (compare_csv_files d1 d2 io).1 = (compare_csv_files d2 d1 io).1 := by
  have h1 := compare_diffs_nil_swap d1 d2 io w1.1 w2.1
  have h2 := compare_diffs_nil_swap d2 d1 io w2.1 w1.1
  rw [compare_fst, compare_fst]
  by_cases hc : (compare_csv_files d1 d2 io).2 = []
  · rw [hc, h1 hc]
  · have hc2 : (compare_csv_files d2 d1 io).2 ≠ [] := fun he => hc (h2 he)
    cases hx : (compare_csv_files d1 d2 io).2 with
    | nil => exact absurd hx hc
    | cons a l =>
      cases hy : (compare_csv_files d2 d1 io).2 with
      | nil => exact absurd hy hc2
      | cons b m => rfl

/-- Witness for C4 at a concrete well-formed pair. -/
theorem compare_match_symm_witness :
    WfDoc ⟨["a"], [[("a", "1")]]⟩ ∧ WfDoc ⟨["a"], [[("a", "2")]]⟩ ∧
    (compare_csv_files ⟨["a"], [[("a", "1")]]⟩ ⟨["a"], [[("a", "2")]]⟩ true).1 =
      (compare_csv_files ⟨["a"], [[("a", "2")]]⟩ ⟨["a"], [[("a", "1")]]⟩ true).1 :=
  ⟨⟨by decide, by decide⟩, ⟨by decide, by decide⟩,
    compare_match_symm _ _ true ⟨by decide, by decide⟩ ⟨by decide, by decide⟩⟩

theorem compare_eq_of_perm (h1 h2 : List String) {r1 r1' r2 r2' : List Row}
    (e1 : r1.Perm r1') (e2 : r2.Perm r2') :
    compare_csv_files ⟨h1, r1⟩ ⟨h2, r2⟩ true = compare_csv_files ⟨h1, r1'⟩ ⟨h2, r2'⟩ true := by
  have hsub : ∀ x ∈ h1, x ∈ sortedHeaders h1 := fun x hx => mem_sortedHeaders hx
  have hk1 := keySeq_eq_of_perm (sortedHeaders h1) e1
  have hk2 := keySeq_eq_of_perm (sortedHeaders h1) e2
  have hrd := rowDiffs_congr hsub 0 _ _ _ _ hk1 hk2
  have hfst : ∀ (dA dB : CsvDoc),
      compare_csv_files dA dB true = ((compare_csv_files dA dB true).2.length == 0,
        (compare_csv_files dA dB true).2) := fun dA dB => rfl
  rw [hfst ⟨h1, r1⟩ ⟨h2, r2⟩, hfst ⟨h1, r1'⟩ ⟨h2, r2'⟩]
  rw [compare_snd_unordered, compare_snd_unordered]
  simp only [e1.length_eq, e2.length_eq, hrd]

/-- C5: in the default order-insensitive mode, permuting the data rows of
either file of a well-formed pair leaves the comparator's match flag
unchanged. -/
theorem compare_perm_invariant (d1 d2 : CsvDoc) (p1 p2 : List Row)
    (_w1 : WfDoc d1) (_w2 : WfDoc d2) (hp1 : p1.Perm d1.rows) (hp2 : p2.Perm d2.rows) :
    (compare_csv_files ⟨d1.headers, p1⟩ d2 true).1 = (compare_csv_files d1 d2 true).1 ∧
    (compare_csv_files d1 ⟨d2.headers, p2⟩ true).1 = (compare_csv_files d1 d2 true).1 := by
  constructor
  · have h := compare_eq_of_perm d1.headers d2.headers hp1 (List.Perm.refl d2.rows)
    exact congrArg Prod.fst h
  · have h := compare_eq_of_perm d1.headers d2.headers (List.Perm.refl d1.rows) hp2
    exact congrArg Prod.fst h

/-- Witness for C5 at a concrete pair with both row lists shuffled. -/
theorem compare_perm_invariant_witness :
    WfDoc ⟨["a"], [[("a", "1")], [("a", "2")]]⟩ ∧
    WfDoc ⟨["a"], [[("a", "2")], [("a", "1")]]⟩ ∧
    ([[("a", "2")], [("a", "1")]] : List Row).Perm [[("a", "1")], [("a", "2")]] ∧
    ([[("a", "1")], [("a", "2")]] : List Row).Perm [[("a", "2")], [("a", "1")]] ∧
    ((compare_csv_files ⟨["a"], [[("a", "2")], [("a", "1")]]⟩
        ⟨["a"], [[("a", "2")], [("a", "1")]]⟩ true).1 =
      (compare_csv_files ⟨["a"], [[("a", "1")], [("a", "2")]]⟩
        ⟨["a"], [[("a", "2")], [("a", "1")]]⟩ true).1 ∧
    (compare_csv_files ⟨["a"], [[("a", "1")], [("a", "2")]]⟩
        ⟨["a"], [[("a", "1")], [("a", "2")]]⟩ true).1 =
      (compare_csv_files ⟨["a"], [[("a", "1")], [("a", "2")]]⟩
        ⟨["a"], [[("a", "2")], [("a", "1")]]⟩ true).1) :=
  ⟨⟨by decide, by decide⟩, ⟨by decide, by decide⟩, by decide, by decide,
    compare_perm_invariant ⟨["a"], [[("a", "1")], [("a", "2")]]⟩
      ⟨["a"], [[("a", "2")], [("a", "1")]]⟩ [[("a", "2")], [("a", "1")]]
      [[("a", "1")], [("a", "2")]] ⟨by decide, by decide⟩ ⟨by decide, by decide⟩
      (by decide) (by decide)⟩
